import Mathlib

/-!
Shallow embedding of `src/Logger_Client.py` (ESP32 BLE multi-device flow
dashboard).  Flow rates and timestamps are modelled as exact rationals
(`ℚ`): timestamps are seconds of wall-clock time, flow rates are the
decimal values extracted from notification payloads.  The `float('inf')`
and `float('-inf')` sentinels used for `min_flow` / `max_flow` are
modelled as `none` in an `Option ℚ`, with the IEEE semantics of
`min(inf, x) = x` and `max(-inf, x) = x` made explicit in `pyMinInf` /
`pyMaxNegInf`.  Tk widget construction, matplotlib rendering and the BLE
transport itself are external collaborators and are not modelled; the
outcome of a transport call (success vs raised exception) appears as an
explicit boolean input where a claim depends on it.
-/

namespace FlowLogger

/-- Transport client handle (`BleakClient`): the only observable the
dashboard reads from it is the `is_connected` flag. -/
structure Client where
  is_connected : Bool
deriving DecidableEq

/-- State of one `FlowDevice` instance (`Logger_Client.py`, class
`FlowDevice`).  UI widget fields and the BLE UUID constants are omitted:
they are never read by the logic under verification.  `min_flow = none`
models `float('inf')`; `max_flow = none` models `float('-inf')`. -/
structure FlowDevice where
  device_id : Nat
  device_name : String
  address : String
  client : Option Client
  connected : Bool
  monitoring : Bool
  max_points : Nat
  timestamps : List ℚ
  flow_rates : List ℚ
  current_flow : ℚ
  total_volume : ℚ
  min_flow : Option ℚ
  max_flow : Option ℚ
  avg_flow : ℚ
  color : Option String
deriving DecidableEq

/-- Fresh session record (`FlowDevice.__init__`). -/
def mkFlowDevice (device_id : Nat) (device_name address : String) : FlowDevice :=
  { device_id := device_id
    device_name := device_name
    address := address
    client := none
    connected := false
    monitoring := false
    max_points := 500
    timestamps := []
    flow_rates := []
    current_flow := 0
    total_volume := 0
    min_flow := none
    max_flow := none
    avg_flow := 0
    color := none }

/-- Append to a `deque(maxlen=cap)`: when the deque is full the oldest
(leftmost) element is evicted. -/
def pushBounded (cap : Nat) (l : List ℚ) (x : ℚ) : List ℚ :=
  if cap ≤ l.length then l.tail ++ [x] else l ++ [x]

/-- Python `min(m, v)` where `m` may be the `float('inf')` sentinel (`none`). -/
def pyMinInf : Option ℚ → ℚ → Option ℚ
  | none, v => some v
  | some m, v => some (min m v)

/-- Python `max(m, v)` where `m` may be the `float('-inf')` sentinel (`none`). -/
def pyMaxNegInf : Option ℚ → ℚ → Option ℚ
  | none, v => some v
  | some m, v => some (max m v)

/-- Python `str.strip()` whitespace set, restricted to ASCII. -/
def isPySpace (c : Char) : Bool :=
  c = ' ' ∨ c = '\t' ∨ c = '\n' ∨ c = '\r' ∨ c = '\x0b' ∨ c = '\x0c'

/-- Python `str.strip()`. -/
def pyStrip (l : List Char) : List Char :=
  ((l.dropWhile isPySpace).reverse.dropWhile isPySpace).reverse

/-- Python `str.rstrip('\x00')`. -/
def rstripNul (l : List Char) : List Char :=
  (l.reverse.dropWhile (· = '\x00')).reverse

/-- Decode of UTF-8 with `errors='ignore'`, modelled for single-byte code
points: a byte below `0x80` decodes to its ASCII character, every other
byte is dropped.  The payloads the dashboard parses are ASCII, and the
numeric pattern below only matches ASCII characters, so multi-byte
sequences never contribute a match. -/
def utf8DecodeIgnore (data : List Nat) : List Char :=
  (data.filter (· < 128)).map Char.ofNat

/-- Attempt to match the pattern `[-+]?\d*\.?\d+` anchored at the head
of `s`, with the regex engine's greedy/backtracking semantics: an
optional sign, then the digit run, then `.` followed by a further digit
run when one is present (otherwise the dot is dropped by backtracking);
the match fails when no digit is consumed. -/
def matchNumAt (s : List Char) : Option (List Char) :=
  let sgn : List Char × List Char :=
    match s with
    | c :: rest => if c = '-' ∨ c = '+' then ([c], rest) else ([], s)
    | [] => ([], [])
  let d1 := sgn.2.takeWhile Char.isDigit
  let s2 := sgn.2.dropWhile Char.isDigit
  match s2 with
  | c :: s3 =>
    if c = '.' then
      let d2 := s3.takeWhile Char.isDigit
      if d2 ≠ [] then some (sgn.1 ++ d1 ++ '.' :: d2)
      else if d1 ≠ [] then some (sgn.1 ++ d1) else none
    else if d1 ≠ [] then some (sgn.1 ++ d1) else none
  | [] => if d1 ≠ [] then some (sgn.1 ++ d1) else none

/-- Leftmost match of `re.search(r'[-+]?\d*\.?\d+', s)`. -/
def reSearchNum : List Char → Option (List Char)
  | [] => none
  | c :: rest =>
    match matchNumAt (c :: rest) with
    | some m => some m
    | none => reSearchNum rest

/-- Numeric value of an ASCII digit run. -/
def digitsVal (l : List Char) : Nat :=
  l.foldl (fun n c => 10 * n + (c.toNat - 48)) 0

/-- Split an optional leading sign off a matched token. -/
def parseSign (m : List Char) : Bool × List Char :=
  match m with
  | c :: r =>
    if c = '-' then (true, r)
    else if c = '+' then (false, r)
    else (false, m)
  | [] => (false, m)

/-- The digits after the decimal point of a matched token, if any. -/
def fracDigits (l : List Char) : List Char :=
  match l with
  | c :: f => if c = '.' then f else []
  | [] => []

/-- Value of `float(...)` applied to a string matched by
`[-+]?\d*\.?\d+`, modelled as the exact decimal value in `ℚ`. -/
def parseDecimal (m : List Char) : ℚ :=
  let s := parseSign m
  let ip := s.2.takeWhile Char.isDigit
  let fp := fracDigits (s.2.dropWhile Char.isDigit)
  let v : ℚ := (digitsVal ip : ℚ) + (digitsVal fp : ℚ) / (10 : ℚ) ^ fp.length
  if s.1 then -v else v

/-- Body of `flow_handler` after a successful regex match (lines
449-464): append to both bounded deques, set `current_flow`, fold the
new value into `min_flow` / `max_flow`, recompute `avg_flow` over the
buffer, and, when more than one timestamp is buffered, advance
`total_volume` by `flow_rate * (timestamps[-1] - timestamps[-2]) / 60`.
The scheduled `update_device_display` call is presentation only. -/
def acceptSample (d : FlowDevice) (now flow_rate : ℚ) : FlowDevice :=
  let timestamps' := pushBounded d.max_points d.timestamps now
  let flow_rates' := pushBounded d.max_points d.flow_rates flow_rate
  let avg' : ℚ :=
    if flow_rates' = [] then d.avg_flow
    else flow_rates'.sum / (flow_rates'.length : ℚ)
  let total' : ℚ :=
    if 1 < timestamps'.length then
      d.total_volume +
        flow_rate * ((timestamps'.getLastD 0 - timestamps'.dropLast.getLastD 0) / 60)
    else d.total_volume
  { d with
    timestamps := timestamps'
    flow_rates := flow_rates'
    current_flow := flow_rate
    min_flow := pyMinInf d.min_flow flow_rate
    max_flow := pyMaxNegInf d.max_flow flow_rate
    avg_flow := avg'
    total_volume := total' }

/-- Outcome of one `flow_handler` invocation.  `accepted` records
whether a sample was parsed and applied (in which case the handler goes
on to call `log_data_point`).  `parseErrorLogged` records whether the
`except` branch emitted its "Flow parse error" event: that branch fires
only when an exception is raised inside the `try`, none of the modelled
operations raises, and a failed regex match takes the silent
fall-through path (the `if match:` has no `else` branch). -/
structure HandlerResult where
  device : FlowDevice
  accepted : Bool
  parseErrorLogged : Bool
deriving DecidableEq

/-- Notification handler `flow_handler(sender, data)` (lines 439-469),
as a function of the session state, the raw payload bytes and the
wall-clock time `now`. -/
def flow_handler (d : FlowDevice) (data : List Nat) (now : ℚ) : HandlerResult :=
  let flow_str := pyStrip (rstripNul (pyStrip (utf8DecodeIgnore data)))
  match reSearchNum flow_str with
  | some m =>
    { device := acceptSample d now (parseDecimal m)
      accepted := true
      parseErrorLogged := false }
  | none =>
    { device := d, accepted := false, parseErrorLogged := false }

/-- Session-local part of `disconnect_device` (lines 399-432).
`raiseOnDisconnect` is the environment's choice of whether the
transport call `await device.client.disconnect()` raises.  Inside the
`try`: the monitoring flag is cleared first; the transport disconnect
is attempted only when a client handle is present and reports
connected; `connected = False` and `client = None` are executed after
that call, so a raised teardown error jumps to the `except` branch
(which only logs) before they run.  The returned `Bool` is whether the
"Disconnect error" message was logged.  The scheduled UI updates and
the global-logging bookkeeping later in the `try` are not part of the
session-local state. -/
def disconnect_device (d : FlowDevice) (raiseOnDisconnect : Bool) :
    FlowDevice × Bool :=
  let d1 := { d with monitoring := false }
  match d1.client with
  | some c =>
    if c.is_connected then
      if raiseOnDisconnect then (d1, true)
      else ({ d1 with connected := false, client := none }, false)
    else ({ d1 with connected := false, client := none }, false)
  | none => ({ d1 with connected := false, client := none }, false)

/-- Reset operation `reset_device_stats` (lines 629-653): when the user confirms
(`response` true), both deques are cleared and `min_flow`, `max_flow`,
`avg_flow`, `total_volume` are returned to their initial values; the
update of the display labels is presentation only.  Note the function
body touches neither `current_flow` nor any connection field. -/
def reset_device_stats (d : FlowDevice) (response : Bool) : FlowDevice :=
  if response then
    { d with
      timestamps := []
      flow_rates := []
      min_flow := none
      max_flow := none
      avg_flow := 0
      total_volume := 0 }
  else d

/-- One row written to the CSV file.  `time` keeps the raw wall-clock
timestamp the row's first column is rendered from, so that the rate
limit can be stated about it; `fields` is the written row itself. -/
structure LogRow where
  time : ℚ
  fields : List String
deriving DecidableEq

/-- Dashboard-level state (`MultiDeviceFlowDashboard.__init__`): the
device registry (a Python `dict`, insertion-ordered, keyed by
`device_id`), the identifier counter, the scan-result list, the color
rotation, and the global CSV logging state.  `global_csv_writer` models
the presence of an open writer; `rows` accumulates the data rows
written since logging started.  Tk widgets and the asyncio loop are
external. -/
structure Dashboard where
  devices : List (Nat × FlowDevice)
  next_device_id : Nat
  available_devices : List (String × String)
  colors : List String
  color_index : Nat
  global_logging : Bool
  global_csv_writer : Bool
  last_log_time : Option ℚ
  rows : List LogRow
deriving DecidableEq

/-- Registry operation `add_device` (lines 213-243).  `selection` is the combobox index
(`-1` when nothing is selected).  An out-of-range index cannot occur
through the UI; it is totalised to a no-op.  A selected address already
present among the registered sessions is rejected with a warning box and
no state change; otherwise a fresh `FlowDevice` is created with the next
identifier and the next rotation color. -/
def add_device (st : Dashboard) (selection : Int) : Dashboard :=
  if st.available_devices.isEmpty then st
  else if selection < 0 then st
  else
    match st.available_devices.get? selection.toNat with
    | none => st
    | some (address, name) =>
      if st.devices.any (fun p => p.2.address == address) then st
      else
        let device_id := st.next_device_id
        let device :=
          { mkFlowDevice device_id name address with
            color := st.colors.get? (st.color_index % st.colors.length) }
        { st with
          next_device_id := st.next_device_id + 1
          devices := st.devices ++ [(device_id, device)]
          color_index := st.color_index + 1 }

/-- Round to the nearest integer, ties to even: the rounding Python's
fixed-point string formatting applies. -/
def roundHalfEven (x : ℚ) : ℤ :=
  let f := ⌊x⌋
  if x - f < 1 / 2 then f
  else if 1 / 2 < x - f then f + 1
  else if f % 2 = 0 then f else f + 1

/-- Left-pad a digit string with zeros to length `n`. -/
def padZeros (n : Nat) (s : String) : String :=
  String.mk (List.replicate (n - s.length) '0') ++ s

/-- Python `f"{x:.prec f}"` on the modelled rational values: fixed-point
rendering with `prec` fractional digits, ties to even. -/
def fmtFixed (prec : Nat) (x : ℚ) : String :=
  let n := roundHalfEven (x * (10 : ℚ) ^ prec)
  let m := n.natAbs
  let sign := if n < 0 then "-" else ""
  sign ++ toString (m / 10 ^ prec) ++ "." ++ padZeros prec (toString (m % 10 ^ prec))

/-- Rendering of the row's `Timestamp` column
(`timestamp.strftime('%Y-%m-%d %H:%M:%S.%f')[:-3]`): the calendar
formatting of the wall-clock value is presentation detail outside the
claims; the embedding renders the raw rational. -/
def fmtTimestamp (t : ℚ) : String :=
  toString t

/-- The five per-device cells of a data row (lines 594-601): flow and
statistics at two decimal places, total volume at three; a `min_flow` /
`max_flow` still at its infinity sentinel is written as `"0.00"`. -/
def deviceFields (d : FlowDevice) : List String :=
  [fmtFixed 2 d.current_flow,
   fmtFixed 3 d.total_volume,
   match d.min_flow with
   | some m => fmtFixed 2 m
   | none => "0.00",
   match d.max_flow with
   | some m => fmtFixed 2 m
   | none => "0.00",
   fmtFixed 2 d.avg_flow]

/-- Insert a device into an id-sorted list, before the first device with
a strictly larger identifier. -/
def insertByID (d : FlowDevice) : List FlowDevice → List FlowDevice
  | [] => [d]
  | e :: rest =>
    if d.device_id < e.device_id then d :: e :: rest else e :: insertByID d rest

/-- Stable sort by ascending `device_id`, modelling Python's
`sorted(..., key=lambda x: x.device_id)`. -/
def sortByID : List FlowDevice → List FlowDevice
  | [] => []
  | d :: rest => insertByID d (sortByID rest)

/-- Connected sessions in ascending identifier order:
`sorted([d for d in self.devices.values() if d.connected],
key=lambda x: x.device_id)` (lines 589-592). -/
def connected_sorted (st : Dashboard) : List FlowDevice :=
  sortByID ((st.devices.map Prod.snd).filter (·.connected))

/-- The data row `log_data_point` writes (lines 587-603): the rendered
timestamp followed by the five statistics cells of every connected
device in ascending identifier order. -/
def buildRow (st : Dashboard) (timestamp : ℚ) : LogRow :=
  { time := timestamp
    fields := fmtTimestamp timestamp :: ((connected_sorted st).map deviceFields).flatten }

/-- Rate-limited CSV write `log_data_point` (lines 576-607): no-op
unless logging is active
with an open writer; no-op when a previous row exists and less than half
a second of wall-clock time separates the triggering timestamp from it;
otherwise records the write time and appends one data row. -/
def log_data_point (st : Dashboard) (timestamp : ℚ) : Dashboard :=
  if ¬st.global_logging ∨ ¬st.global_csv_writer then st
  else
    let write :=
      { st with
        last_log_time := some timestamp
        rows := st.rows ++ [buildRow st timestamp] }
    match st.last_log_time with
    | some t0 => if timestamp - t0 < 1 / 2 then st else write
    | none => write

/-- Fold a sequence of accepted samples `(now, flow_rate)` through the
per-sample update. -/
def runSamples (d : FlowDevice) (samples : List (ℚ × ℚ)) : FlowDevice :=
  samples.foldl (fun d p => acceptSample d p.1 p.2) d

/-- Fold a sequence of sample wall-clock times through `log_data_point`. -/
def runLog (st : Dashboard) (tss : List ℚ) : Dashboard :=
  tss.foldl log_data_point st

/-- The ten rotation colors of `MultiDeviceFlowDashboard.__init__`. -/
def pyColors : List String :=
  ["#1f77b4", "#ff7f0e", "#2ca02c", "#d62728", "#9467bd",
   "#8c564b", "#e377c2", "#7f7f7f", "#bcbd22", "#17becf"]

/-- Dashboard state right after `MultiDeviceFlowDashboard.__init__`. -/
def baseDashboard : Dashboard :=
  { devices := []
    next_device_id := 1
    available_devices := []
    colors := pyColors
    color_index := 0
    global_logging := false
    global_csv_writer := false
    last_log_time := none
    rows := [] }

/-- The payload `b"3.14 L/min\x00"` as bytes. -/
def payload314 : List Nat := [51, 46, 49, 52, 32, 76, 47, 109, 105, 110, 0]

/-- The payload `b"----"` as bytes. -/
def payloadDashes : List Nat := [45, 45, 45, 45]

/-- The payload `b"1.0"` as bytes. -/
def payloadOne : List Nat := [49, 46, 48]

/-- A session that is connected and monitoring, with a live client. -/
def devC1 : FlowDevice :=
  { mkFlowDevice 1 "FLOW_LOGGER_1" "AA:BB" with
    connected := true
    monitoring := true
    client := some { is_connected := true } }

/-- A fresh session: its monitoring flag is false. -/
def devC2 : FlowDevice := mkFlowDevice 1 "FLOW_LOGGER_1" "AA:BB"

/-- A connected session holding one sample of value 5. -/
def devC3 : FlowDevice :=
  { mkFlowDevice 1 "FLOW_LOGGER_1" "AA:BB" with
    connected := true
    monitoring := true
    client := some { is_connected := true }
    timestamps := [0]
    flow_rates := [5]
    current_flow := 5
    min_flow := some 5
    max_flow := some 5
    avg_flow := 5 }

/-- A fresh session used for the payload-parsing claim. -/
def devC4 : FlowDevice := mkFlowDevice 1 "FLOW_LOGGER_1" "AA:BB"

/-- A session holding one sample `(0, 2)`. -/
def devC6 : FlowDevice :=
  { mkFlowDevice 1 "FLOW_LOGGER_1" "AA:BB" with
    timestamps := [0]
    flow_rates := [2]
    current_flow := 2
    min_flow := some 2
    max_flow := some 2
    avg_flow := 2 }

/-- A fresh session used for the min/max invariant claim. -/
def devC7 : FlowDevice := mkFlowDevice 1 "FLOW_LOGGER_1" "AA:BB"

/-- A dashboard with logging just started (no row written yet). -/
def stC8 : Dashboard :=
  { baseDashboard with global_logging := true, global_csv_writer := true }

/-- A dashboard with logging active and a row already written at time 0. -/
def stC8b : Dashboard :=
  { baseDashboard with
    global_logging := true
    global_csv_writer := true
    last_log_time := some 0
    rows := [buildRow { baseDashboard with global_logging := true, global_csv_writer := true } 0] }

/-- A dashboard already holding a session with address `"AA:BB"`, with
that same address selected in the scan results. -/
def stC9 : Dashboard :=
  { baseDashboard with
    devices := [(1, mkFlowDevice 1 "FLOW_LOGGER_1" "AA:BB")]
    next_device_id := 2
    available_devices := [("AA:BB", "FLOW_LOGGER_1")]
    color_index := 1 }

/-- A dashboard with one connected session that has accepted no samples
yet (min/max still at their sentinels). -/
def stC10 : Dashboard :=
  { baseDashboard with
    devices := [(1, { mkFlowDevice 1 "FLOW_LOGGER_1" "AA:BB" with connected := true })]
    next_device_id := 2
    global_logging := true
    global_csv_writer := true }

/-!
Theorems.  Claims C1-C4 fail on the code as the spec states them; each
gets a concrete counterexample and a proof of the amended statement.
-/

/-- C1, counterexample: on a connected, monitoring session whose
transport disconnect call raises, `disconnect_device` leaves the
connected flag true and the client handle in place, contradicting
"the session's local state is Disconnected ... whether or not the
transport disconnect call raised an error". -/
theorem disconnect_teardown_error_leaves_connected_cex :
    devC1.connected = true ∧ devC1.monitoring = true ∧
    (disconnect_device devC1 true).1.connected = true ∧
    (disconnect_device devC1 true).1.client = some { is_connected := true } ∧
    (disconnect_device devC1 true).1.monitoring = false := by
  decide

/-- C1 (corrected): `disconnect_device` always clears the monitoring
flag first; when the transport disconnect raises, the error is logged
and the connected flag and client handle are left unchanged; only when
no transport error occurs (or no disconnect call is needed) is the
session marked disconnected locally with the client handle cleared. -/
theorem disconnect_local_state (d : FlowDevice) (r : Bool) :
    (disconnect_device d r).1.monitoring = false ∧
    ((r = true ∧ ∃ c, d.client = some c ∧ c.is_connected = true) →
      (disconnect_device d r).1 = { d with monitoring := false } ∧
      (disconnect_device d r).2 = true) ∧
    (¬(r = true ∧ ∃ c, d.client = some c ∧ c.is_connected = true) →
      (disconnect_device d r).1 =
        { d with monitoring := false, connected := false, client := none } ∧
      (disconnect_device d r).2 = false) := by
  obtain ⟨id0, nm, ad, cl, co, mo, mp, ts, fr, cf, tv, mi, ma, av, col⟩ := d
  cases cl with
  | none =>
    refine ⟨by simp [disconnect_device], ?_, ?_⟩
    · rintro ⟨-, c, hcc, -⟩
      exact absurd hcc (by simp)
    · intro _
      simp [disconnect_device]
  | some c =>
    cases hcc : c.is_connected with
    | false =>
      refine ⟨by simp [disconnect_device, hcc], ?_, ?_⟩
      · rintro ⟨-, c', hc', hcc'⟩
        obtain rfl : c = c' := by injection hc'
        rw [hcc] at hcc'
        exact absurd hcc' (by simp)
      · intro _
        simp [disconnect_device, hcc]
    | true =>
      cases r with
      | false =>
        refine ⟨by simp [disconnect_device, hcc], ?_, ?_⟩
        · rintro ⟨hr, -⟩
          exact absurd hr (by simp)
        · intro _
          simp [disconnect_device, hcc]
      | true =>
        refine ⟨by simp [disconnect_device, hcc], ?_, ?_⟩
        · intro _
          simp [disconnect_device, hcc]
        · intro hn
          exact absurd ⟨rfl, c, rfl, hcc⟩ hn

/-- C1, witness: the corrected statement evaluated on a live session
whose transport disconnect succeeds. -/
theorem disconnect_local_state_witness :
    (disconnect_device devC1 false).1.monitoring = false ∧
    ((false = true ∧ ∃ c, devC1.client = some c ∧ c.is_connected = true) →
      (disconnect_device devC1 false).1 = { devC1 with monitoring := false } ∧
      (disconnect_device devC1 false).2 = true) ∧
    (¬(false = true ∧ ∃ c, devC1.client = some c ∧ c.is_connected = true) →
      (disconnect_device devC1 false).1 =
        { devC1 with monitoring := false, connected := false, client := none } ∧
      (disconnect_device devC1 false).2 = false) :=
  disconnect_local_state devC1 false

/-- C2, counterexample: `flow_handler` contains no check of the
monitoring flag, so a notification delivered to a session whose
monitoring flag is false still mutates the sample buffer and the
statistics, contradicting "the notification is ignored". -/
theorem notification_mutates_state_while_not_monitoring_cex :
    devC2.monitoring = false ∧
    (flow_handler devC2 payloadOne 7).device.flow_rates ≠ devC2.flow_rates ∧
    (flow_handler devC2 payloadOne 7).device.timestamps ≠ devC2.timestamps := by
  decide

/-- C2 (corrected): the per-sample handler never consults the
monitoring flag: a delivered notification is processed identically
whether the flag is true or false (same buffer, statistics and volume
updates, same logging trigger), the flag itself being merely carried
through.  Sessions outside `Monitoring` only stop receiving samples
because the transport subscription ends, not because of any check in
the handler. -/
theorem flow_handler_independent_of_monitoring_flag
    (d : FlowDevice) (data : List Nat) (now : ℚ) (b : Bool) :
    flow_handler { d with monitoring := b } data now =
      { device := { (flow_handler d data now).device with monitoring := b }
        accepted := (flow_handler d data now).accepted
        parseErrorLogged := (flow_handler d data now).parseErrorLogged } := by
  obtain ⟨id0, nm, ad, cl, co, mo, mp, ts, fr, cf, tv, mi, ma, av, col⟩ := d
  cases hm : reSearchNum (pyStrip (rstripNul (pyStrip (utf8DecodeIgnore data)))) with
  | none => simp [flow_handler, hm]
  | some m => simp [flow_handler, hm, acceptSample]

/-- C3, counterexample: the confirmed reset leaves `current_flow` at
its previous value (here 5), contradicting "sets current and avg to
0.0" — the reset body (lines 644-649) never assigns `current_flow`,
matching its own confirmation dialog, which lists only total volume,
min/max/avg and graph data. -/
theorem reset_keeps_current_flow_cex :
    devC3.flow_rates ≠ [] ∧
    (reset_device_stats devC3 true).current_flow = 5 ∧ ((5 : ℚ) ≠ 0) := by
  decide

/-- C3 (corrected): on a session holding at least one sample, the
confirmed reset empties both deques, returns `min_flow` / `max_flow` to
their infinity sentinels, sets `avg_flow` and `total_volume` to zero,
and leaves `current_flow` as well as the whole connection state
(connected flag, monitoring flag, client handle) unchanged. -/
theorem reset_device_stats_spec (d : FlowDevice) (_h : d.flow_rates ≠ []) :
    (reset_device_stats d true).timestamps = [] ∧
    (reset_device_stats d true).flow_rates = [] ∧
    (reset_device_stats d true).min_flow = none ∧
    (reset_device_stats d true).max_flow = none ∧
    (reset_device_stats d true).avg_flow = 0 ∧
    (reset_device_stats d true).total_volume = 0 ∧
    (reset_device_stats d true).current_flow = d.current_flow ∧
    (reset_device_stats d true).connected = d.connected ∧
    (reset_device_stats d true).monitoring = d.monitoring ∧
    (reset_device_stats d true).client = d.client := by
  simp [reset_device_stats]

/-- C3, witness: the corrected statement evaluated on a connected
session holding one sample. -/
theorem reset_device_stats_spec_witness :
    (reset_device_stats devC3 true).timestamps = [] ∧
    (reset_device_stats devC3 true).flow_rates = [] ∧
    (reset_device_stats devC3 true).min_flow = none ∧
    (reset_device_stats devC3 true).max_flow = none ∧
    (reset_device_stats devC3 true).avg_flow = 0 ∧
    (reset_device_stats devC3 true).total_volume = 0 ∧
    (reset_device_stats devC3 true).current_flow = devC3.current_flow ∧
    (reset_device_stats devC3 true).connected = devC3.connected ∧
    (reset_device_stats devC3 true).monitoring = devC3.monitoring ∧
    (reset_device_stats devC3 true).client = devC3.client :=
  reset_device_stats_spec devC3 (by decide)

/-- C4, counterexample: the payload `b"----"` yields no regex match, and
the handler then does nothing at all — session state is unchanged but no
parse-error event is reported either (the "Flow parse error" log sits in
the `except` branch, which only a raised exception reaches),
contradicting "a parse-error event is reported". -/
theorem parse_failure_not_reported_cex :
    flow_handler devC4 payloadDashes 0 =
      { device := devC4, accepted := false, parseErrorLogged := false } := by
  decide

/-- C4 (corrected): the handler decodes the payload as text, strips the
whitespace/NUL padding and extracts the first token of the optional-sign
decimal pattern, so `b"3.14 L/min\x00"` is accepted with value 3.14;
when no token matches, the sample is discarded with no mutation of any
session state and no parse-error event is reported. -/
theorem flow_handler_parse_spec (d : FlowDevice) (now : ℚ) :
    ((flow_handler d payload314 now).device.current_flow = 157 / 50 ∧
     (flow_handler d payload314 now).accepted = true) ∧
    ∀ data : List Nat,
      reSearchNum (pyStrip (rstripNul (pyStrip (utf8DecodeIgnore data)))) = none →
      flow_handler d data now =
        { device := d, accepted := false, parseErrorLogged := false } := by
  constructor
  · have h : reSearchNum (pyStrip (rstripNul (pyStrip (utf8DecodeIgnore payload314)))) =
        some ['3', '.', '1', '4'] := by decide
    have hp : parseDecimal ['3', '.', '1', '4'] = 157 / 50 := by
      have h1 : parseSign ['3', '.', '1', '4'] = (false, ['3', '.', '1', '4']) := by decide
      have h2 : List.takeWhile Char.isDigit ['3', '.', '1', '4'] = ['3'] := by decide
      have h3 : fracDigits (List.dropWhile Char.isDigit ['3', '.', '1', '4']) = ['1', '4'] := by
        decide
      have h4 : digitsVal ['3'] = 3 := by decide
      have h5 : digitsVal ['1', '4'] = 14 := by decide
      simp only [parseDecimal, h1, h2, h3, h4, h5]
      norm_num
    exact ⟨by simp [flow_handler, h, acceptSample, hp], by simp [flow_handler, h]⟩
  · intro data hdata
    simp [flow_handler, hdata]

/-- C4, witness: the corrected statement evaluated on a fresh session
with the two scenario payloads. -/
theorem flow_handler_parse_spec_witness :
    ((flow_handler devC4 payload314 0).device.current_flow = 157 / 50 ∧
     (flow_handler devC4 payload314 0).accepted = true) ∧
    flow_handler devC4 payloadDashes 0 =
      { device := devC4, accepted := false, parseErrorLogged := false } :=
  ⟨(flow_handler_parse_spec devC4 0).1,
   (flow_handler_parse_spec devC4 0).2 payloadDashes (by decide)⟩

theorem pushBounded_ne_nil (cap : Nat) (l : List ℚ) (x : ℚ) :
    pushBounded cap l x ≠ [] := by
  unfold pushBounded
  split <;> simp

/-- C5 (confirmed): after every per-sample update, `avg_flow` equals the
arithmetic mean of exactly the samples then held in the bounded buffer,
whatever the prior session state (hence after every step of every sample
sequence, including once eviction has begun). -/
theorem avg_is_buffer_mean (d : FlowDevice) (now v : ℚ) :
    (acceptSample d now v).avg_flow =
      (acceptSample d now v).flow_rates.sum /
        ((acceptSample d now v).flow_rates.length : ℚ) := by
  simp [acceptSample, pushBounded_ne_nil]

theorem getLastD_tail (l : List ℚ) (x : ℚ) (h : 2 ≤ l.length) :
    l.tail.getLastD x = l.getLastD x := by
  match l, h with
  | a :: b :: r, _ => simp [List.getLastD_cons]

/-- C6 (confirmed): with the buffer capacity at its program value 500,
accepting a sample into a session with an empty timestamp buffer leaves
`total_volume` unchanged (the first sample contributes no volume), and
accepting `(t, v)` into a session whose most recent timestamp is `t1`
increases `total_volume` by exactly `v * ((t - t1) / 60)` — left-endpoint
integration with the new sample's rate over the just-elapsed interval,
also across eviction of the oldest sample. -/
theorem volume_left_endpoint_update (d : FlowDevice) (t v : ℚ)
    (hcap : d.max_points = 500) :
    (d.timestamps = [] → (acceptSample d t v).total_volume = d.total_volume) ∧
    (∀ t1, d.timestamps.getLast? = some t1 →
      (acceptSample d t v).total_volume = d.total_volume + v * ((t - t1) / 60)) := by
  constructor
  · intro h
    simp [acceptSample, pushBounded, h, hcap]
  · intro t1 h1
    have hne : d.timestamps ≠ [] := by
      intro hh
      rw [hh] at h1
      simp at h1
    have hlast : (pushBounded d.max_points d.timestamps t).getLastD 0 = t := by
      unfold pushBounded
      split <;> rw [List.getLastD_concat]
    have hdrop :
        (pushBounded d.max_points d.timestamps t).dropLast.getLastD 0 = t1 := by
      unfold pushBounded
      split
      · rename_i hev
        rw [List.dropLast_concat, getLastD_tail _ _ (by omega),
          List.getLastD_eq_getLast?, h1]
        rfl
      · rw [List.dropLast_concat, List.getLastD_eq_getLast?, h1]
        rfl
    have hlen : 1 < (pushBounded d.max_points d.timestamps t).length := by
      have hpos : 0 < d.timestamps.length := List.length_pos.mpr hne
      unfold pushBounded
      split
      · rename_i hev
        rw [List.length_append, List.length_tail]
        simp only [List.length_singleton]
        omega
      · rw [List.length_append]
        simp only [List.length_singleton]
        omega
    simp only [acceptSample]
    rw [if_pos hlen, hlast, hdrop]

/-- C6, witness: the left-endpoint update evaluated on a session whose
buffer holds the single sample `(0, 2)`, accepting `(30, 4)`. -/
theorem volume_left_endpoint_update_witness :
    (devC6.timestamps = [] →
      (acceptSample devC6 30 4).total_volume = devC6.total_volume) ∧
    (∀ t1, devC6.timestamps.getLast? = some t1 →
      (acceptSample devC6 30 4).total_volume =
        devC6.total_volume + 4 * ((30 - t1) / 60)) :=
  volume_left_endpoint_update devC6 30 4 (by decide)

theorem acceptSample_min_flow (d : FlowDevice) (t v : ℚ) :
    (acceptSample d t v).min_flow = pyMinInf d.min_flow v := rfl

theorem acceptSample_max_flow (d : FlowDevice) (t v : ℚ) :
    (acceptSample d t v).max_flow = pyMaxNegInf d.max_flow v := rfl

theorem runSamples_concat (d : FlowDevice) (ps : List (ℚ × ℚ)) (p : ℚ × ℚ) :
    runSamples d (ps ++ [p]) = acceptSample (runSamples d ps) p.1 p.2 := by
  simp [runSamples, List.foldl_concat]

theorem runSamples_min (d : FlowDevice) (samples : List (ℚ × ℚ)) :
    (runSamples d samples).min_flow =
      samples.foldl (fun o p => pyMinInf o p.2) d.min_flow := by
  induction samples generalizing d with
  | nil => rfl
  | cons p ps ih =>
    rw [show runSamples d (p :: ps) = runSamples (acceptSample d p.1 p.2) ps from rfl,
      ih, acceptSample_min_flow]
    rfl

theorem runSamples_max (d : FlowDevice) (samples : List (ℚ × ℚ)) :
    (runSamples d samples).max_flow =
      samples.foldl (fun o p => pyMaxNegInf o p.2) d.max_flow := by
  induction samples generalizing d with
  | nil => rfl
  | cons p ps ih =>
    rw [show runSamples d (p :: ps) = runSamples (acceptSample d p.1 p.2) ps from rfl,
      ih, acceptSample_max_flow]
    rfl

theorem foldl_pyMinInf_some (vs : List ℚ) (m0 : ℚ) :
    ∃ m, vs.foldl pyMinInf (some m0) = some m ∧ m ≤ m0 ∧ ∀ v ∈ vs, m ≤ v := by
  induction vs generalizing m0 with
  | nil => exact ⟨m0, rfl, le_refl _, by simp⟩
  | cons v vs ih =>
    obtain ⟨m, hm, hle, hall⟩ := ih (min m0 v)
    refine ⟨m, by simpa [pyMinInf] using hm, hle.trans (min_le_left _ _), ?_⟩
    intro w hw
    rcases List.mem_cons.mp hw with rfl | hw
    · exact hle.trans (min_le_right _ _)
    · exact hall w hw

theorem foldl_pyMinInf_of_ne_nil (vs : List ℚ) (h : vs ≠ []) :
    ∃ m, vs.foldl pyMinInf none = some m ∧ ∀ v ∈ vs, m ≤ v := by
  match vs, h with
  | v :: vs, _ =>
    obtain ⟨m, hm, hle, hall⟩ := foldl_pyMinInf_some vs v
    refine ⟨m, by simpa [pyMinInf] using hm, ?_⟩
    intro w hw
    rcases List.mem_cons.mp hw with rfl | hw
    · exact hle
    · exact hall w hw

theorem foldl_pyMaxNegInf_some (vs : List ℚ) (m0 : ℚ) :
    ∃ M, vs.foldl pyMaxNegInf (some m0) = some M ∧ m0 ≤ M ∧ ∀ v ∈ vs, v ≤ M := by
  induction vs generalizing m0 with
  | nil => exact ⟨m0, rfl, le_refl _, by simp⟩
  | cons v vs ih =>
    obtain ⟨M, hM, hle, hall⟩ := ih (max m0 v)
    refine ⟨M, by simpa [pyMaxNegInf] using hM, (le_max_left _ _).trans hle, ?_⟩
    intro w hw
    rcases List.mem_cons.mp hw with rfl | hw
    · exact (le_max_right _ _).trans hle
    · exact hall w hw

theorem foldl_pyMaxNegInf_of_ne_nil (vs : List ℚ) (h : vs ≠ []) :
    ∃ M, vs.foldl pyMaxNegInf none = some M ∧ ∀ v ∈ vs, v ≤ M := by
  match vs, h with
  | v :: vs, _ =>
    obtain ⟨M, hM, hle, hall⟩ := foldl_pyMaxNegInf_some vs v
    refine ⟨M, by simpa [pyMaxNegInf] using hM, ?_⟩
    intro w hw
    rcases List.mem_cons.mp hw with rfl | hw
    · exact hle
    · exact hall w hw

/-- C7 (confirmed): running any nonempty sequence of accepted samples
through the per-sample update from a session whose min/max are still at
their sentinels yields finite `min_flow = some m` and
`max_flow = some M` with `m ≤ value ≤ M` for every accepted sample value
(also the ones already evicted from the buffer), and
`m ≤ current_flow ≤ M`. -/
theorem min_max_bound_all_samples (d0 : FlowDevice) (samples : List (ℚ × ℚ))
    (h1 : d0.min_flow = none) (h2 : d0.max_flow = none) (hs : samples ≠ []) :
    ∃ m M, (runSamples d0 samples).min_flow = some m ∧
      (runSamples d0 samples).max_flow = some M ∧
      (∀ p ∈ samples, m ≤ p.2 ∧ p.2 ≤ M) ∧
      m ≤ (runSamples d0 samples).current_flow ∧
      (runSamples d0 samples).current_flow ≤ M := by
  have hmap : samples.map Prod.snd ≠ [] := by simpa using hs
  obtain ⟨m, hm, hmall⟩ := foldl_pyMinInf_of_ne_nil _ hmap
  obtain ⟨M, hM, hMall⟩ := foldl_pyMaxNegInf_of_ne_nil _ hmap
  rw [List.foldl_map] at hm hM
  have hminf : (runSamples d0 samples).min_flow = some m := by
    rw [runSamples_min, h1]
    exact hm
  have hmaxf : (runSamples d0 samples).max_flow = some M := by
    rw [runSamples_max, h2]
    exact hM
  obtain ⟨L, p, hLp⟩ : ∃ L p, samples = L ++ [p] := by
    rcases List.eq_nil_or_concat samples with h | ⟨L, p, h⟩
    · exact absurd h hs
    · exact ⟨L, p, by simpa [List.concat_eq_append] using h⟩
  have hbound : ∀ q ∈ samples, m ≤ q.2 ∧ q.2 ≤ M := by
    intro q hq
    exact ⟨hmall q.2 (List.mem_map_of_mem _ hq), hMall q.2 (List.mem_map_of_mem _ hq)⟩
  have hcur : (runSamples d0 samples).current_flow = p.2 := by
    rw [hLp, runSamples_concat]
    rfl
  have hpmem : p ∈ samples := by
    rw [hLp]
    exact List.mem_concat_self L p
  exact ⟨m, M, hminf, hmaxf, hbound,
    hcur ▸ (hbound p hpmem).1, hcur ▸ (hbound p hpmem).2⟩

/-- C7, witness: the bounds evaluated on a fresh session accepting the
samples `(0, 2)` then `(30, 4)`. -/
theorem min_max_bound_all_samples_witness :
    ∃ m M, (runSamples devC7 [(0, 2), (30, 4)]).min_flow = some m ∧
      (runSamples devC7 [(0, 2), (30, 4)]).max_flow = some M ∧
      (∀ p ∈ [((0 : ℚ), (2 : ℚ)), (30, 4)], m ≤ p.2 ∧ p.2 ≤ M) ∧
      m ≤ (runSamples devC7 [(0, 2), (30, 4)]).current_flow ∧
      (runSamples devC7 [(0, 2), (30, 4)]).current_flow ≤ M :=
  min_max_bound_all_samples devC7 [(0, 2), (30, 4)] rfl rfl (by decide)

theorem log_data_point_skip_inactive (st : Dashboard) (t : ℚ)
    (h : ¬st.global_logging ∨ ¬st.global_csv_writer) :
    log_data_point st t = st := by
  unfold log_data_point
  rw [if_pos h]

theorem log_data_point_skip_recent (st : Dashboard) (t t0 : ℚ)
    (h1 : st.last_log_time = some t0) (h2 : t - t0 < 1 / 2) :
    log_data_point st t = st := by
  unfold log_data_point
  split
  · rfl
  · simp only [h1]
    rw [if_pos h2]

theorem log_data_point_write_none (st : Dashboard) (t : ℚ)
    (hg : st.global_logging = true) (hw : st.global_csv_writer = true)
    (hl : st.last_log_time = none) :
    log_data_point st t =
      { st with last_log_time := some t, rows := st.rows ++ [buildRow st t] } := by
  unfold log_data_point
  rw [if_neg (by simp [hg, hw])]
  simp only [hl]

theorem log_data_point_write_due (st : Dashboard) (t t0 : ℚ)
    (hg : st.global_logging = true) (hw : st.global_csv_writer = true)
    (hl : st.last_log_time = some t0) (hdue : ¬(t - t0 < 1 / 2)) :
    log_data_point st t =
      { st with last_log_time := some t, rows := st.rows ++ [buildRow st t] } := by
  unfold log_data_point
  rw [if_neg (by simp [hg, hw])]
  simp only [hl]
  rw [if_neg hdue]

theorem buildRow_time (st : Dashboard) (t : ℚ) : (buildRow st t).time = t := rfl

theorem log_data_point_inv (st : Dashboard) (t : ℚ)
    (hp : List.Pairwise (fun a b : ℚ => a + 1 / 2 ≤ b) (st.rows.map LogRow.time))
    (hb : ∀ x ∈ st.rows.map LogRow.time,
      ∃ t0, st.last_log_time = some t0 ∧ x ≤ t0) :
    List.Pairwise (fun a b : ℚ => a + 1 / 2 ≤ b)
      ((log_data_point st t).rows.map LogRow.time) ∧
    ∀ x ∈ (log_data_point st t).rows.map LogRow.time,
      ∃ t0, (log_data_point st t).last_log_time = some t0 ∧ x ≤ t0 := by
  by_cases hg : st.global_logging
  · by_cases hw : st.global_csv_writer
    · cases hl : st.last_log_time with
      | none =>
        have hrows : st.rows.map LogRow.time = [] := by
          cases h : st.rows.map LogRow.time with
          | nil => rfl
          | cons x xs =>
            obtain ⟨t0, ht0, -⟩ := hb x (by rw [h]; exact List.mem_cons_self x xs)
            rw [hl] at ht0
            cases ht0
        rw [log_data_point_write_none st t (by simpa using hg) (by simpa using hw) hl]
        constructor
        · simp [hrows, buildRow_time]
        · intro x hx
          rw [List.map_append, hrows] at hx
          simp only [List.nil_append, List.map_cons, List.map_nil,
            buildRow_time, List.mem_singleton] at hx
          exact ⟨t, rfl, le_of_eq hx⟩
      | some t0 =>
        by_cases hlt : t - t0 < 1 / 2
        · rw [log_data_point_skip_recent st t t0 hl hlt]
          exact ⟨hp, hb⟩
        · have hsep : t0 + 1 / 2 ≤ t := by
            have := not_lt.mp hlt
            linarith
          rw [log_data_point_write_due st t t0 (by simpa using hg) (by simpa using hw)
            hl hlt]
          constructor
          · rw [List.map_append]
            simp only [List.map_cons, List.map_nil, buildRow_time]
            rw [List.pairwise_append]
            refine ⟨hp, List.pairwise_singleton _ _, ?_⟩
            intro a ha b hbm
            obtain rfl : b = t := by simpa using hbm
            obtain ⟨t0', ht0', hle⟩ := hb a ha
            rw [hl] at ht0'
            obtain rfl : t0 = t0' := by injection ht0'
            linarith
          · intro x hx
            rw [List.map_append] at hx
            rcases List.mem_append.mp hx with hx | hx
            · obtain ⟨t0', ht0', hle⟩ := hb x hx
              rw [hl] at ht0'
              obtain rfl : t0 = t0' := by injection ht0'
              exact ⟨t, rfl, by linarith⟩
            · simp only [List.map_cons, List.map_nil, buildRow_time,
                List.mem_singleton] at hx
              exact ⟨t, rfl, le_of_eq hx⟩
    · rw [log_data_point_skip_inactive st t (Or.inr hw)]
      exact ⟨hp, hb⟩
  · rw [log_data_point_skip_inactive st t (Or.inl hg)]
    exact ⟨hp, hb⟩

theorem runLog_inv (st : Dashboard) (tss : List ℚ)
    (hp : List.Pairwise (fun a b : ℚ => a + 1 / 2 ≤ b) (st.rows.map LogRow.time))
    (hb : ∀ x ∈ st.rows.map LogRow.time,
      ∃ t0, st.last_log_time = some t0 ∧ x ≤ t0) :
    List.Pairwise (fun a b : ℚ => a + 1 / 2 ≤ b)
      ((runLog st tss).rows.map LogRow.time) ∧
    ∀ x ∈ (runLog st tss).rows.map LogRow.time,
      ∃ t0, (runLog st tss).last_log_time = some t0 ∧ x ≤ t0 := by
  induction tss generalizing st with
  | nil => exact ⟨hp, hb⟩
  | cons t ts ih =>
    have hstep := log_data_point_inv st t hp hb
    exact ih (log_data_point st t) hstep.1 hstep.2

/-- C8 (confirmed): starting from a state with no row written yet,
folding any sequence of sample timestamps through `log_data_point`
yields rows whose raw timestamps are pairwise at least half a second
apart (each later row is at least 0.5 s after each earlier one), however
many devices trigger samples; and a call whose timestamp is within half
a second of the recorded last write time writes nothing and leaves the
state untouched. -/
theorem log_rows_rate_limited (st : Dashboard) (tss : List ℚ) (t t0 : ℚ) :
    (st.rows = [] →
      List.Pairwise (fun a b : ℚ => a + 1 / 2 ≤ b)
        ((runLog st tss).rows.map LogRow.time)) ∧
    (st.last_log_time = some t0 → t - t0 < 1 / 2 → log_data_point st t = st) := by
  constructor
  · intro h0
    exact (runLog_inv st tss (by simp [h0]) (by simp [h0])).1
  · exact log_data_point_skip_recent st t t0

/-- C8, witness: three samples at 0 s, 0.2 s and 0.6 s through a freshly
started logging session, and one skip on a state last written at 0 s. -/
theorem log_rows_rate_limited_witness :
    List.Pairwise (fun a b : ℚ => a + 1 / 2 ≤ b)
      ((runLog stC8 [0, 1 / 5, 3 / 5]).rows.map LogRow.time) ∧
    log_data_point stC8b (1 / 5) = stC8b :=
  ⟨(log_rows_rate_limited stC8 [0, 1 / 5, 3 / 5] 0 0).1 rfl,
   (log_rows_rate_limited stC8b [] (1 / 5) 0).2 rfl (by norm_num)⟩

/-- C9 (confirmed): an add-device request whose selected address is
already carried by a registered session is rejected with no state
change at all — in particular no session is created and neither the
device count nor `next_device_id` moves. -/
theorem duplicate_address_add_rejected (st : Dashboard) (selection : Int)
    (address name : String)
    (hsel : st.available_devices.get? selection.toNat = some (address, name))
    (hdup : ∃ p ∈ st.devices, p.2.address = address) :
    add_device st selection = st := by
  have hne : st.available_devices.isEmpty = false := by
    cases h : st.available_devices with
    | nil =>
      rw [h] at hsel
      simp at hsel
    | cons a l => simp [h]
  by_cases hneg : selection < 0
  · simp [add_device, hne, hneg]
  · have hany : st.devices.any (fun p => p.2.address == address) = true := by
      obtain ⟨p, hp, he⟩ := hdup
      exact List.any_eq_true.mpr ⟨p, hp, by simp [he]⟩
    have hsel2 : st.available_devices[selection.toNat]? = some (address, name) := by
      rw [← List.get?_eq_getElem?]
      exact hsel
    simp [add_device, hne, hneg, hsel2, hany]

/-- C9, witness: re-adding the already-registered address `"AA:BB"`
leaves the dashboard unchanged. -/
theorem duplicate_address_add_rejected_witness :
    add_device stC9 0 = stC9 :=
  duplicate_address_add_rejected stC9 0 "AA:BB" "FLOW_LOGGER_1" rfl
    ⟨(1, mkFlowDevice 1 "FLOW_LOGGER_1" "AA:BB"), by decide, rfl⟩

theorem deviceFields_length (d : FlowDevice) : (deviceFields d).length = 5 := rfl

theorem flatten_deviceFields_get (l : List FlowDevice) (k i : Nat) (d : FlowDevice)
    (hi : i < 5) (hk : l.get? k = some d) :
    ((l.map deviceFields).flatten).get? (5 * k + i) = (deviceFields d).get? i := by
  induction l generalizing k with
  | nil => simp at hk
  | cons e l ih =>
    cases k with
    | zero =>
      obtain rfl : e = d := by
        rw [List.get?] at hk
        injection hk
      rw [List.map_cons, List.flatten_cons, Nat.mul_zero, Nat.zero_add]
      exact List.get?_append (by rw [deviceFields_length]; exact hi)
    | succ k =>
      rw [List.map_cons, List.flatten_cons]
      rw [List.get?_append_right (by rw [deviceFields_length]; omega)]
      rw [deviceFields_length]
      have harith : 5 * (k + 1) + i - 5 = 5 * k + i := by omega
      rw [harith]
      exact ih k (by simpa using hk)

/-- C10 (confirmed): in a data row, a connected device still at its
min/max infinity sentinels (no accepted sample yet) gets the literal
string `"0.00"` in its Min and Max columns — the 3rd and 4th of its five
cells, at row positions `1 + 5k + 2` and `1 + 5k + 3` for the device at
position `k` of the id-ordered connected list. -/
theorem fresh_device_min_max_cells (st : Dashboard) (ts : ℚ) (k : Nat)
    (d : FlowDevice) (hk : (connected_sorted st).get? k = some d)
    (hmin : d.min_flow = none) (hmax : d.max_flow = none) :
    (buildRow st ts).fields.get? (1 + (5 * k + 2)) = some "0.00" ∧
    (buildRow st ts).fields.get? (1 + (5 * k + 3)) = some "0.00" := by
  have h2 := flatten_deviceFields_get (connected_sorted st) k 2 d (by omega) hk
  have h3 := flatten_deviceFields_get (connected_sorted st) k 3 d (by omega) hk
  constructor
  · show (fmtTimestamp ts ::
      ((connected_sorted st).map deviceFields).flatten).get? (1 + (5 * k + 2)) =
      some "0.00"
    rw [Nat.add_comm 1 (5 * k + 2), List.get?_cons_succ, h2]
    simp [deviceFields, hmin]
  · show (fmtTimestamp ts ::
      ((connected_sorted st).map deviceFields).flatten).get? (1 + (5 * k + 3)) =
      some "0.00"
    rw [Nat.add_comm 1 (5 * k + 3), List.get?_cons_succ, h3]
    simp [deviceFields, hmax]

/-- C10, witness: the single connected fresh device of `stC10` occupies
row cells 3 and 4, both rendered `"0.00"`. -/
theorem fresh_device_min_max_cells_witness :
    (buildRow stC10 0).fields.get? (1 + (5 * 0 + 2)) = some "0.00" ∧
    (buildRow stC10 0).fields.get? (1 + (5 * 0 + 3)) = some "0.00" :=
  fresh_device_min_max_cells stC10 0 0
    { mkFlowDevice 1 "FLOW_LOGGER_1" "AA:BB" with connected := true }
    rfl rfl rfl

end FlowLogger
